import Mathlib

/-!
Verification of the LectureAI uploader/payment server (`src/server.js`, final
variant, plus the `src/unnamed/part_000` variant) against its specification.

The handlers are shallowly embedded: a JavaScript string field that may be
absent is an `Option String`; the JS `||`-default idiom on strings becomes
`jsStrOr`/`jsStrOrNull` (absent and the empty string are both falsy); each
outbound provider call is a parameter of the handler, and the persistence
calls a handler performs are returned explicitly as a list so that theorems
can count them.
-/

namespace LectureAI

/-- JS string truthiness: `undefined`, `null` and `""` are falsy. -/
def jsTruthy (v : Option String) : Bool :=
  match v with
  | none => false
  | some s => s ≠ ""

/-- The JS idiom `v || d` on an optional string: the default replaces both an
absent value and the empty string. -/
def jsStrOr (v : Option String) (d : String) : String :=
  match v with
  | none => d
  | some s => if s = "" then d else s

/-- The JS idiom `v || null` / `v || undefined` on an optional string: the
empty string collapses to `none`. -/
def jsStrOrNull (v : Option String) : Option String :=
  match v with
  | none => none
  | some s => if s = "" then none else some s

/-! ## Checkout session creation (`POST /create-checkout-session`) -/

/-- Body of a `POST /create-checkout-session` request
(`const { priceId, email, plan_type, user_id } = req.body`, src/server.js:60). -/
structure CheckoutRequest where
  priceId : Option String
  email : Option String
  plan_type : Option String
  user_id : Option String
deriving DecidableEq, Repr

/-- The argument object passed to `stripe.checkout.sessions.create`
(src/server.js:67-83). -/
structure SessionCreateParams where
  mode : String
  price : String
  quantity : Nat
  customer_email : Option String
  meta_plan_type : String
  meta_user_id : String
deriving DecidableEq, Repr

/-- The session object the payment provider returns
(`session.id`, `session.url`, src/server.js:85-86). -/
structure StripeSession where
  id : String
  url : String
deriving DecidableEq, Repr

/-- What the `POST /create-checkout-session` handler computes before/instead of
calling the provider (src/server.js:62-83): `400 Missing priceId` when
`!priceId`, otherwise the create-call parameters, with `mode` fixed to
`"subscription"`, `customer_email: email || undefined`, and metadata
`plan_type: plan_type || "unknown"`, `user_id: user_id || "none"`. -/
def createCheckoutParams (req : CheckoutRequest) : Except (Nat × String) SessionCreateParams :=
  if jsTruthy req.priceId = false then
    Except.error (400, "Missing priceId")
  else
    Except.ok
      { mode := "subscription"
        price := req.priceId.getD ""
        quantity := 1
        customer_email := jsStrOrNull req.email
        meta_plan_type := jsStrOr req.plan_type "unknown"
        meta_user_id := jsStrOr req.user_id "none" }

/-- HTTP-level result of the checkout handler. -/
inductive CheckoutResult where
  | clientError (status : Nat) (msg : String)
  | ok (url : String)
deriving DecidableEq, Repr

/-- The `POST /create-checkout-session` handler (src/server.js:57-91),
abstracted over the payment provider. The second component lists the
create-calls actually sent to the provider (the code makes at most one). -/
def checkoutHandler (provider : SessionCreateParams → StripeSession)
    (req : CheckoutRequest) : CheckoutResult × List SessionCreateParams :=
  match createCheckoutParams req with
  | Except.error (s, m) => (CheckoutResult.clientError s m, [])
  | Except.ok params => (CheckoutResult.ok (provider params).url, [params])

/-! ## Checkout session creation, `part_000` variant -/

/-- The create-call parameters of the `src/unnamed/part_000` variant
(lines 71-88 there): no metadata, and `mode` conditional on the configured
one-time price id. -/
structure SessionCreateParamsV2 where
  mode : String
  price : String
  quantity : Nat
  customer_email : Option String
deriving DecidableEq, Repr

/-- `priceId === process.env.STRIPE_ONE_TIME_PRICE_ID ? "payment" : "subscription"`
(src/unnamed/part_000:73-76); strict equality of a string against an unset
environment variable is false. -/
def v2Mode (oneTimePriceId : Option String) (priceId : String) : String :=
  match oneTimePriceId with
  | some p => if priceId = p then "payment" else "subscription"
  | none => "subscription"

/-- The `POST /create-checkout-session` handler of the `part_000` variant
(src/unnamed/part_000:63-95), up to the provider call. -/
def createCheckoutParamsV2 (oneTimePriceId priceId email : Option String) :
    Except (Nat × String) SessionCreateParamsV2 :=
  if jsTruthy priceId = false then
    Except.error (400, "Missing priceId")
  else
    Except.ok
      { mode := v2Mode oneTimePriceId (priceId.getD "")
        price := priceId.getD ""
        quantity := 1
        customer_email := email }

/-! ## Stripe webhook (`POST /stripe/webhook`) -/

/-- The `metadata` object of a checkout session carried by a webhook event. -/
structure SessionMetadata where
  plan_type : Option String
  user_id : Option String
deriving DecidableEq, Repr

/-- The `event.data.object` of a `checkout.session.completed` event
(`const { email, metadata, customer } = session`, src/server.js:118). -/
structure CheckoutSessionObject where
  email : Option String
  metadata : Option SessionMetadata
  customer : Option String
deriving DecidableEq, Repr

/-- A decoded Stripe event: a type tag and the session payload. -/
structure StripeEvent where
  type : String
  data : CheckoutSessionObject
deriving DecidableEq, Repr

/-- One inbound webhook delivery. `signatureValid` abstracts
`stripe.webhooks.constructEvent` (src/server.js:104-108): it throws exactly
when the signature does not verify against the shared webhook secret, in which
case `event` is never looked at. -/
structure WebhookDelivery where
  signatureValid : Bool
  event : StripeEvent
deriving DecidableEq, Repr

/-- The row shape upserted into `user_subscriptions` (src/server.js:122-128). -/
structure SubscriptionRecord where
  user_id : Option String
  email : Option String
  plan_type : String
  stripe_customer_id : Option String
  subscription_status : String
deriving DecidableEq, Repr

/-- Body of the webhook handler's HTTP response: plain error text on signature
failure, `{ received: true }` otherwise. -/
inductive WebhookBody where
  | errorText
  | receivedTrue
deriving DecidableEq, Repr

/-- Observable outcome of one webhook delivery: HTTP status, response body,
and the list of upsert calls issued to the persistence layer. -/
structure WebhookOutcome where
  status : Nat
  body : WebhookBody
  upserts : List SubscriptionRecord
deriving DecidableEq, Repr

/-- The record built in the `checkout.session.completed` case
(src/server.js:117-128): `plan_type = metadata?.plan_type || "unknown"`,
`user_id = metadata?.user_id || null`, customer id and email copied through,
status `"active"`. -/
def recordOfSession (s : CheckoutSessionObject) : SubscriptionRecord :=
  { user_id := jsStrOrNull (s.metadata.bind (fun m => m.user_id))
    email := s.email
    plan_type := jsStrOr (s.metadata.bind (fun m => m.plan_type)) "unknown"
    stripe_customer_id := s.customer
    subscription_status := "active" }

/-- The `POST /stripe/webhook` handler (src/server.js:96-144): 400 and no
side effect on signature failure; one upsert and `{ received: true }` on a
`checkout.session.completed` event; `{ received: true }` and no side effect on
every other event type. -/
def webhookHandler (d : WebhookDelivery) : WebhookOutcome :=
  if d.signatureValid = false then
    { status := 400, body := WebhookBody.errorText, upserts := [] }
  else if d.event.type = "checkout.session.completed" then
    { status := 200, body := WebhookBody.receivedTrue
      upserts := [recordOfSession d.event.data] }
  else
    { status := 200, body := WebhookBody.receivedTrue, upserts := [] }

/-! ## The subscription store -/

/-- The subscription table, as the list of its rows. -/
abbrev SubscriptionStore := List SubscriptionRecord

/-- Row `x` lies under key `k` (the user identifier). -/
def keyMatch (k : Option String) (x : SubscriptionRecord) : Bool :=
  decide (x.user_id = k)

/-- Modelled from the spec: the persistence layer's `upsert` is external to
src/ (a `supabase` client call, src/server.js:122); the spec's glossary defines
it as insert-if-absent-else-update keyed by a unique identifier, here the user
identifier (§3: "Upserted (insert-or-update) keyed by user identifier"). -/
def upsert (store : SubscriptionStore) (r : SubscriptionRecord) : SubscriptionStore :=
  if store.any (keyMatch r.user_id) then
    store.map (fun x => if keyMatch r.user_id x then r else x)
  else
    store ++ [r]

/-- Effect of one webhook delivery on the store: perform, in order, the
upserts the handler issues. -/
def applyDelivery (store : SubscriptionStore) (d : WebhookDelivery) : SubscriptionStore :=
  (webhookHandler d).upserts.foldl upsert store

/-- Number of rows stored under a given user identifier. -/
def countForUser (store : SubscriptionStore) (uid : Option String) : Nat :=
  (store.filter (keyMatch uid)).length

/-- The spec's invariant (§3): at most one row per user identifier. -/
def atMostOnePerUser (store : SubscriptionStore) : Prop :=
  ∀ uid, countForUser store uid ≤ 1

/-! ## File upload (`POST /upload`) -/

/-- The multer file object (`req.file`, src/server.js:151). -/
structure UploadedFile where
  originalname : String
  path : String
deriving DecidableEq, Repr

/-- One outbound `fetch` response as the handler consumes it: its HTTP status
and the result of `res.json()` (`none` when the call fails or the body does
not parse as JSON, which throws into the surrounding catch). The parsed
payload is kept abstract as a string. -/
structure ProviderResponse where
  status : Nat
  jsonBody : Option String
deriving DecidableEq, Repr

/-- Observable outcome of `POST /upload`: HTTP status, success message,
relayed provider payload, error message, and whether the handler deleted the
local temp file before responding. -/
structure UploadOutcome where
  status : Nat
  message : Option String
  uploadResult : Option String
  errorMsg : Option String
  deletedTempFile : Bool
deriving DecidableEq, Repr

/-- The shared failure exit of the upload handler (src/server.js:191-194). -/
def uploadFailure : UploadOutcome :=
  { status := 500, message := none, uploadResult := none
    errorMsg := some "Upload failed", deletedTempFile := false }

/-- The `POST /upload` handler (src/server.js:149-195): 400 without a file;
otherwise authorize, get an upload URL, and upload, in sequence, each step
consuming the response body via `.json()` and never inspecting the response
status; any throw lands in the catch (500). No `fs.unlink` occurs anywhere in
the handler. -/
def uploadHandler (file : Option UploadedFile)
    (authRes uploadUrlRes uploadRes : ProviderResponse) : UploadOutcome :=
  match file with
  | none =>
    { status := 400, message := none, uploadResult := none
      errorMsg := some "No file uploaded", deletedTempFile := false }
  | some _ =>
    match authRes.jsonBody with
    | none => uploadFailure
    | some _ =>
      match uploadUrlRes.jsonBody with
      | none => uploadFailure
      | some _ =>
        match uploadRes.jsonBody with
        | none => uploadFailure
        | some r =>
          { status := 200, message := some "Upload successful"
            uploadResult := some r, errorMsg := none, deletedTempFile := false }

/-! ## Signed download (`GET /signed-download`) -/

/-- Result of a fresh Backblaze authorization exchange. -/
structure B2AuthResult where
  apiUrl : String
  downloadBaseUrl : String
  authorizationToken : String
deriving DecidableEq, Repr

/-- Response of the signed-download issuer. -/
structure SignedDownloadResponse where
  downloadUrl : String
  authorizationHeader : String
deriving DecidableEq, Repr

/-- Modelled from the spec: no `GET /signed-download` route exists under src/;
per §4.2 the issuer, given an object name, "re-authenticates to the storage
provider from scratch (no session reuse) and returns a constructed download
URL (base + bucket name + object name) plus the bearer token". The handler is
abstracted over the authorization exchange; the second component counts the
fresh authentications it performs. -/
def signedDownloadHandler (authorize : Unit → B2AuthResult)
    (bucketName fileName : String) : SignedDownloadResponse × Nat :=
  let auth := authorize ()
  ({ downloadUrl := auth.downloadBaseUrl ++ "/" ++ bucketName ++ "/" ++ fileName
     authorizationHeader := auth.authorizationToken }, 1)

/-! ## Concrete instances used by witnesses and counterexamples -/

/-- The session payload of the spec's end-to-end webhook scenario. -/
def sessionU1 : CheckoutSessionObject :=
  { email := some "a@b.com"
    metadata := some { plan_type := some "single", user_id := some "u1" }
    customer := some "cus_1" }

/-- A validly signed `checkout.session.completed` delivery of that session. -/
def deliveryU1 : WebhookDelivery :=
  { signatureValid := true
    event := { type := "checkout.session.completed", data := sessionU1 } }

/-- The same payload delivered with an invalid signature. -/
def deliveryBadSig : WebhookDelivery :=
  { signatureValid := false
    event := { type := "checkout.session.completed", data := sessionU1 } }

/-- A validly signed delivery of an unhandled event type. -/
def deliveryOther : WebhookDelivery :=
  { signatureValid := true
    event := { type := "invoice.paid", data := sessionU1 } }

/-- The record the spec's scenario expects to be stored. -/
def recordU1 : SubscriptionRecord :=
  { user_id := some "u1", email := some "a@b.com", plan_type := "single"
    stripe_customer_id := some "cus_1", subscription_status := "active" }

/-- A checkout request for a recurring plan. -/
def reqU1 : CheckoutRequest :=
  { priceId := some "price_sub_1", email := some "a@b.com"
    plan_type := some "subscription", user_id := some "u1" }

/-- A checkout request for a single-purchase plan with a resolvable price. -/
def reqSingle : CheckoutRequest :=
  { priceId := some "price_single_1", email := some "a@b.com"
    plan_type := some "single", user_id := some "u1" }

/-- A checkout request with no resolvable price identifier. -/
def reqNoPrice : CheckoutRequest :=
  { priceId := none, email := some "a@b.com"
    plan_type := some "single", user_id := some "u1" }

/-- A payment provider that always returns the same hosted session. -/
def providerFixed : SessionCreateParams → StripeSession :=
  fun _ => { id := "cs_test_1", url := "https://checkout.stripe.com/c/pay/cs_test_1" }

/-- The uploaded file of the spec's end-to-end upload scenario. -/
def fileLecture : UploadedFile :=
  { originalname := "lecture1.mp3", path := "uploads/abc123" }

/-- A well-formed authorize-account response. -/
def respAuth : ProviderResponse := { status := 200, jsonBody := some "authData" }

/-- A well-formed get-upload-url response. -/
def respUploadUrl : ProviderResponse := { status := 200, jsonBody := some "uploadUrlData" }

/-- A well-formed upload response. -/
def respUpload : ProviderResponse := { status := 200, jsonBody := some "uploadResultData" }

/-- An authorize response whose HTTP status reports failure but whose body is
still JSON. -/
def respAuthDenied : ProviderResponse := { status := 401, jsonBody := some "authDenied" }

/-- An upload-url response whose HTTP status reports failure but whose body is
still JSON. -/
def respUrlFailed : ProviderResponse := { status := 503, jsonBody := some "urlFailed" }

/-- An upload response whose HTTP status reports failure but whose body is
still JSON. -/
def respUploadFailed : ProviderResponse := { status := 500, jsonBody := some "uploadFailed" }

/-- A fixed Backblaze authorization exchange. -/
def b2AuthFixed : Unit → B2AuthResult :=
  fun _ =>
    { apiUrl := "https://api000.backblazeb2.com"
      downloadBaseUrl := "https://f000.backblazeb2.com/file"
      authorizationToken := "4_00abc_tok" }

/-! ## Helper lemmas about the keyed upsert -/

theorem keyMatch_self (r : SubscriptionRecord) : keyMatch r.user_id r = true := by
  simp [keyMatch]

theorem map_replace_filter_key (r : SubscriptionRecord) (l : List SubscriptionRecord) :
    (l.map (fun x => if keyMatch r.user_id x then r else x)).filter (keyMatch r.user_id)
      = (l.filter (keyMatch r.user_id)).map (fun _ => r) := by
  induction l with
  | nil => rfl
  | cons x xs ih =>
    by_cases h : keyMatch r.user_id x
    · simp only [List.map_cons, h, if_true, List.filter_cons, keyMatch_self, ih]
    · simp only [List.map_cons, if_neg h, List.filter_cons, ih]

theorem map_replace_filter_other (r : SubscriptionRecord) (uid : Option String)
    (hne : uid ≠ r.user_id) (l : List SubscriptionRecord) :
    (l.map (fun x => if keyMatch r.user_id x then r else x)).filter (keyMatch uid)
      = l.filter (keyMatch uid) := by
  induction l with
  | nil => rfl
  | cons x xs ih =>
    by_cases h : keyMatch r.user_id x
    · have hx : x.user_id = r.user_id := by simpa [keyMatch] using h
      have hru : keyMatch uid r = false := by simp [keyMatch, Ne.symm hne]
      have hxu : keyMatch uid x = false := by simp [keyMatch, hx, Ne.symm hne]
      simp only [List.map_cons, h, if_true, List.filter_cons, hru, hxu, ih]
      simp
    · simp only [List.map_cons, if_neg h, List.filter_cons, ih]

theorem filter_key_nil_of_any_false (k : Option String) (l : List SubscriptionRecord)
    (h : l.any (keyMatch k) = false) : l.filter (keyMatch k) = [] := by
  induction l with
  | nil => rfl
  | cons x xs ih =>
    simp only [List.any_cons, Bool.or_eq_false_iff] at h
    simp only [List.filter_cons, h.1, ih h.2]
    simp

theorem upsert_filter_key (store : SubscriptionStore) (r : SubscriptionRecord)
    (h : countForUser store r.user_id ≤ 1) :
    (upsert store r).filter (keyMatch r.user_id) = [r] := by
  unfold upsert
  by_cases ha : store.any (keyMatch r.user_id) = true
  · simp only [ha, if_true]
    rw [map_replace_filter_key]
    obtain ⟨x, hx, hpx⟩ := List.any_eq_true.mp ha
    have hmem : x ∈ store.filter (keyMatch r.user_id) := List.mem_filter.mpr ⟨hx, hpx⟩
    have h1 : 1 ≤ (store.filter (keyMatch r.user_id)).length := List.length_pos_of_mem hmem
    have h2 : (store.filter (keyMatch r.user_id)).length = 1 :=
      Nat.le_antisymm h h1
    obtain ⟨a, hal⟩ := List.length_eq_one.mp h2
    rw [hal]
    rfl
  · have ha' : store.any (keyMatch r.user_id) = false := by
      simpa using ha
    rw [if_neg ha]
    rw [List.filter_append, filter_key_nil_of_any_false r.user_id store ha']
    simp [keyMatch_self]

theorem upsert_filter_other (store : SubscriptionStore) (r : SubscriptionRecord)
    (uid : Option String) (hne : uid ≠ r.user_id) :
    (upsert store r).filter (keyMatch uid) = store.filter (keyMatch uid) := by
  unfold upsert
  by_cases ha : store.any (keyMatch r.user_id) = true
  · simp only [ha, if_true]
    exact map_replace_filter_other r uid hne store
  · have hru : keyMatch uid r = false := by simp [keyMatch, Ne.symm hne]
    rw [if_neg ha]
    rw [List.filter_append]
    simp [hru]

theorem upsert_of_unique (t : SubscriptionStore) (r : SubscriptionRecord)
    (hany : t.any (keyMatch r.user_id) = true)
    (huni : ∀ x ∈ t, keyMatch r.user_id x = true → x = r) :
    upsert t r = t := by
  unfold upsert
  simp only [hany, if_true]
  have hpt : ∀ x ∈ t, (if keyMatch r.user_id x then r else x) = x := by
    intro x hx
    by_cases h : keyMatch r.user_id x
    · rw [if_pos h, huni x hx h]
    · rw [if_neg h]
  calc t.map (fun x => if keyMatch r.user_id x then r else x)
      = t.map id := List.map_congr_left (by simpa using hpt)
    _ = t := List.map_id t

theorem upsert_idem (store : SubscriptionStore) (r : SubscriptionRecord)
    (h : countForUser store r.user_id ≤ 1) :
    upsert (upsert store r) r = upsert store r := by
  have hfk := upsert_filter_key store r h
  have hr : r ∈ upsert store r := by
    have : r ∈ (upsert store r).filter (keyMatch r.user_id) := by
      rw [hfk]; exact List.mem_singleton_self r
    exact (List.mem_filter.mp this).1
  have hany : (upsert store r).any (keyMatch r.user_id) = true :=
    List.any_eq_true.mpr ⟨r, hr, keyMatch_self r⟩
  have huni : ∀ x ∈ upsert store r, keyMatch r.user_id x = true → x = r := by
    intro x hx hpx
    have : x ∈ (upsert store r).filter (keyMatch r.user_id) :=
      List.mem_filter.mpr ⟨hx, hpx⟩
    rw [hfk] at this
    simpa using this
  exact upsert_of_unique (upsert store r) r hany huni

/-! ## Claim theorems -/

/-- C1: a webhook delivery whose signature verifies and whose event type is
`checkout.session.completed` performs exactly one upsert, whose record takes
`user_id` from the session metadata (defaulting to null when the field is
absent or empty), `plan_type` from the metadata (defaulting to `"unknown"`),
`stripe_customer_id` from the session's customer field, and whose
`subscription_status` is `"active"`. -/
theorem webhook_completed_single_upsert (d : WebhookDelivery)
    (hsig : d.signatureValid = true)
    (htype : d.event.type = "checkout.session.completed") :
    (webhookHandler d).upserts =
      [{ user_id := jsStrOrNull (d.event.data.metadata.bind (fun m => m.user_id))
         email := d.event.data.email
         plan_type := jsStrOr (d.event.data.metadata.bind (fun m => m.plan_type)) "unknown"
         stripe_customer_id := d.event.data.customer
         subscription_status := "active" }] := by
  simp [webhookHandler, hsig, htype, recordOfSession]

/-- C1 witness: the spec's crafted event (metadata `user_id = "u1"`,
`plan_type = "single"`, customer `cus_1`) stores exactly the record
`(u1, a@b.com, single, cus_1, active)`. -/
theorem webhook_completed_single_upsert_witness :
    (webhookHandler deliveryU1).upserts = [recordU1] := by
  have h := webhook_completed_single_upsert deliveryU1 rfl rfl
  simpa [deliveryU1, sessionU1, recordU1, jsStrOr, jsStrOrNull] using h

/-- C2: a webhook delivery whose signature does not verify is answered with
HTTP 400 and performs no upsert; the subscription store is untouched. -/
theorem webhook_invalid_signature_no_persistence (d : WebhookDelivery)
    (hsig : d.signatureValid = false) :
    (webhookHandler d).status = 400 ∧ (webhookHandler d).upserts = [] ∧
      ∀ store : SubscriptionStore, applyDelivery store d = store := by
  refine ⟨?_, ?_, ?_⟩ <;> simp [webhookHandler, applyDelivery, hsig]

/-- C2 witness: the invalid-signature delivery of the scenario payload is
rejected with 400 and leaves the empty store empty. -/
theorem webhook_invalid_signature_no_persistence_witness :
    (webhookHandler deliveryBadSig).status = 400 ∧
      (webhookHandler deliveryBadSig).upserts = [] ∧
      ∀ store : SubscriptionStore, applyDelivery store deliveryBadSig = store :=
  webhook_invalid_signature_no_persistence deliveryBadSig rfl

/-- C3: a webhook delivery whose signature verifies but whose event type is
not `checkout.session.completed` is answered with HTTP 200 and body
`received: true`, and performs no upsert. -/
theorem webhook_other_event_no_persistence (d : WebhookDelivery)
    (hsig : d.signatureValid = true)
    (htype : d.event.type ≠ "checkout.session.completed") :
    (webhookHandler d).status = 200 ∧
      (webhookHandler d).body = WebhookBody.receivedTrue ∧
      (webhookHandler d).upserts = [] ∧
      ∀ store : SubscriptionStore, applyDelivery store d = store := by
  refine ⟨?_, ?_, ?_, ?_⟩ <;> simp [webhookHandler, applyDelivery, hsig, htype]

/-- C3 witness: a validly signed `invoice.paid` delivery gets 200 /
`received: true` and leaves any store unchanged. -/
theorem webhook_other_event_no_persistence_witness :
    (webhookHandler deliveryOther).status = 200 ∧
      (webhookHandler deliveryOther).body = WebhookBody.receivedTrue ∧
      (webhookHandler deliveryOther).upserts = [] ∧
      ∀ store : SubscriptionStore, applyDelivery store deliveryOther = store :=
  webhook_other_event_no_persistence deliveryOther rfl (by decide)

/-- C4: on a store with at most one row per user identifier, delivering the
same validly signed `checkout.session.completed` event twice equals delivering
it once; afterwards exactly one row exists under the extracted user
identifier, and the at-most-one-row invariant is preserved. -/
theorem webhook_duplicate_delivery_idempotent (store : SubscriptionStore)
    (d : WebhookDelivery) (hsig : d.signatureValid = true)
    (htype : d.event.type = "checkout.session.completed")
    (hinv : atMostOnePerUser store) :
    applyDelivery (applyDelivery store d) d = applyDelivery store d ∧
      countForUser (applyDelivery (applyDelivery store d) d)
        (recordOfSession d.event.data).user_id = 1 ∧
      atMostOnePerUser (applyDelivery store d) := by
  have happ : ∀ s : SubscriptionStore,
      applyDelivery s d = upsert s (recordOfSession d.event.data) := by
    intro s
    simp [applyDelivery, webhookHandler, hsig, htype]
  set r := recordOfSession d.event.data with hrdef
  have hcount : countForUser store r.user_id ≤ 1 := hinv r.user_id
  have hfk := upsert_filter_key store r hcount
  have hidem : upsert (upsert store r) r = upsert store r := upsert_idem store r hcount
  have hinv2 : atMostOnePerUser (upsert store r) := by
    intro uid
    by_cases huid : uid = r.user_id
    · subst huid
      simp [countForUser, hfk]
    · unfold countForUser
      rw [upsert_filter_other store r uid huid]
      exact hinv uid
  refine ⟨?_, ?_, ?_⟩
  · rw [happ store, happ (upsert store r), hidem]
  · rw [happ store, happ (upsert store r), hidem]
    simp [countForUser, hfk]
  · rw [happ store]
    exact hinv2

/-- C4 witness: delivering the scenario event twice onto the empty store
equals delivering it once, leaves exactly one row for user `u1`, and keeps the
invariant. -/
theorem webhook_duplicate_delivery_idempotent_witness :
    applyDelivery (applyDelivery [] deliveryU1) deliveryU1 = applyDelivery [] deliveryU1 ∧
      countForUser (applyDelivery (applyDelivery [] deliveryU1) deliveryU1)
        (recordOfSession deliveryU1.event.data).user_id = 1 ∧
      atMostOnePerUser (applyDelivery [] deliveryU1) :=
  webhook_duplicate_delivery_idempotent [] deliveryU1 rfl rfl
    (fun uid => by simp [countForUser])

/-- C5 counterexample: a checkout request for the single-purchase plan
(`plan_type = "single"`) with a resolvable price is created by the
src/server.js handler in mode `"subscription"`, which is not the one-time mode
`"payment"` the claim requires. -/
theorem checkout_single_plan_mode_counterexample :
    (createCheckoutParams reqSingle).map SessionCreateParams.mode
        = Except.ok "subscription" ∧ ("subscription" : String) ≠ "payment" := by
  constructor
  · rfl
  · decide

/-- C5 amended: the src/server.js handler creates every session in mode
`"subscription"` regardless of the plan type; in the `part_000` variant the
mode is the one-time `"payment"` exactly when the submitted price id equals
the configured one-time price id, and `"subscription"` otherwise. -/
theorem checkout_mode_amended (req : CheckoutRequest)
    (h : jsTruthy req.priceId = true)
    (oneTime priceId2 email2 : Option String)
    (h2 : jsTruthy priceId2 = true) :
    (createCheckoutParams req).map SessionCreateParams.mode
        = Except.ok "subscription" ∧
      (createCheckoutParamsV2 oneTime priceId2 email2).map SessionCreateParamsV2.mode
        = Except.ok
            (if oneTime = some (priceId2.getD "") then "payment" else "subscription") := by
  constructor
  · simp [createCheckoutParams, h, Except.map]
  · cases oneTime with
    | none => simp [createCheckoutParamsV2, h2, v2Mode, Except.map]
    | some p =>
      by_cases hp : priceId2.getD "" = p
      · simp [createCheckoutParamsV2, h2, v2Mode, hp, Except.map]
      · have hp' : p ≠ priceId2.getD "" := fun hcontra => hp hcontra.symm
        simp [createCheckoutParamsV2, h2, v2Mode, hp, hp', Except.map]

/-- C5 amended witness: a recurring-plan request yields mode `"subscription"`
in src/server.js, and submitting the configured one-time price id to the
`part_000` variant yields mode `"payment"`. -/
theorem checkout_mode_amended_witness :
    (createCheckoutParams reqU1).map SessionCreateParams.mode
        = Except.ok "subscription" ∧
      (createCheckoutParamsV2 (some "price_one") (some "price_one")
          (some "a@b.com")).map SessionCreateParamsV2.mode
        = Except.ok
            (if (some "price_one" : Option String)
                = some ((some "price_one" : Option String).getD "")
             then "payment" else "subscription") :=
  checkout_mode_amended reqU1 (by decide) (some "price_one") (some "price_one")
    (some "a@b.com") (by decide)

/-- C6: for a checkout request with a resolvable price and non-empty submitted
`user_id` and `plan_type`, against a provider whose sessions carry a non-empty
hosted URL, the handler responds with that non-empty redirect URL and the one
create-call sent to the provider carries metadata equal to the submitted
`user_id` and `plan_type`. -/
theorem checkout_url_and_metadata (provider : SessionCreateParams → StripeSession)
    (req : CheckoutRequest) (p u : String)
    (hprice : jsTruthy req.priceId = true)
    (hp : req.plan_type = some p) (hpne : p ≠ "")
    (hu : req.user_id = some u) (hune : u ≠ "")
    (hprov : ∀ ps : SessionCreateParams, (provider ps).url ≠ "") :
    ∃ url : String,
      (checkoutHandler provider req).1 = CheckoutResult.ok url ∧ url ≠ "" ∧
        (checkoutHandler provider req).2.map
            (fun ps => (ps.meta_user_id, ps.meta_plan_type)) = [(u, p)] := by
  have hP : createCheckoutParams req = Except.ok
      { mode := "subscription"
        price := req.priceId.getD ""
        quantity := 1
        customer_email := jsStrOrNull req.email
        meta_plan_type := p
        meta_user_id := u } := by
    simp [createCheckoutParams, hprice, jsStrOr, hp, hu, hpne, hune]
  refine ⟨(provider
      { mode := "subscription"
        price := req.priceId.getD ""
        quantity := 1
        customer_email := jsStrOrNull req.email
        meta_plan_type := p
        meta_user_id := u }).url, ?_, hprov _, ?_⟩
  · simp [checkoutHandler, hP]
  · simp [checkoutHandler, hP]

/-- C6 witness: the recurring-plan request against the fixed provider returns
the provider's non-empty hosted URL, and the single create-call carries
metadata `(u1, subscription)`. -/
theorem checkout_url_and_metadata_witness :
    ∃ url : String,
      (checkoutHandler providerFixed reqU1).1 = CheckoutResult.ok url ∧ url ≠ "" ∧
        (checkoutHandler providerFixed reqU1).2.map
            (fun ps => (ps.meta_user_id, ps.meta_plan_type))
          = [("u1", "subscription")] :=
  checkout_url_and_metadata providerFixed reqU1 "subscription" "u1"
    (by decide) rfl (by decide) rfl (by decide)
    (fun ps => by simp [providerFixed])

/-- C7: a checkout request in which no price identifier is resolvable
(`priceId` absent or empty) is answered with HTTP 400 and message
`Missing priceId`, and no create-call reaches the payment provider. -/
theorem checkout_missing_price_client_error
    (provider : SessionCreateParams → StripeSession)
    (req : CheckoutRequest) (h : jsTruthy req.priceId = false) :
    (checkoutHandler provider req).1
        = CheckoutResult.clientError 400 "Missing priceId" ∧
      (checkoutHandler provider req).2 = [] := by
  constructor <;> simp [checkoutHandler, createCheckoutParams, h]

/-- C7 witness: the request without a price id gets the 400 client error and
the provider is never called. -/
theorem checkout_missing_price_client_error_witness :
    (checkoutHandler providerFixed reqNoPrice).1
        = CheckoutResult.clientError 400 "Missing priceId" ∧
      (checkoutHandler providerFixed reqNoPrice).2 = [] :=
  checkout_missing_price_client_error providerFixed reqNoPrice rfl

/-- C8 counterexample: a fully successful upload relay (all three provider
calls return JSON) responds 200 `Upload successful` yet does not delete the
local temporary file, contradicting the claim that the temp file is deleted on
the success path. -/
theorem upload_success_keeps_temp_counterexample :
    (uploadHandler (some fileLecture) respAuth respUploadUrl respUpload).status = 200 ∧
      (uploadHandler (some fileLecture) respAuth respUploadUrl respUpload).message
        = some "Upload successful" ∧
      (uploadHandler (some fileLecture) respAuth respUploadUrl
          respUpload).deletedTempFile = false :=
  ⟨rfl, rfl, rfl⟩

/-- C8 amended: the upload handler never deletes the local temporary file on
any path — the file remains on disk after success as well as after failure. -/
theorem upload_never_deletes_temp (file : Option UploadedFile)
    (a b c : ProviderResponse) :
    (uploadHandler file a b c).deletedTempFile = false := by
  obtain ⟨sa, ja⟩ := a
  obtain ⟨sb, jb⟩ := b
  obtain ⟨sc, jc⟩ := c
  cases file <;> cases ja <;> cases jb <;> cases jc <;> rfl

/-- C9: the signed-download issuer (modelled from the spec; the route is
absent from src/) performs exactly one fresh authentication and returns a
download URL that ends in the requested object name together with the
non-empty authorization token. -/
theorem signed_download_url_contains_name (authorize : Unit → B2AuthResult)
    (bucketName fileName : String)
    (htok : (authorize ()).authorizationToken ≠ "") :
    (signedDownloadHandler authorize bucketName fileName).2 = 1 ∧
      (∃ pre : String,
        (signedDownloadHandler authorize bucketName fileName).1.downloadUrl
          = pre ++ fileName) ∧
      (signedDownloadHandler authorize bucketName fileName).1.authorizationHeader
        ≠ "" := by
  refine ⟨rfl, ⟨(authorize ()).downloadBaseUrl ++ "/" ++ bucketName ++ "/", rfl⟩, htok⟩

/-- C9 witness: requesting `lecture1.mp3` from the fixed authorization yields
one authentication, a URL containing `lecture1.mp3`, and a non-empty token. -/
theorem signed_download_url_contains_name_witness :
    (signedDownloadHandler b2AuthFixed "lectureai-bucket" "lecture1.mp3").2 = 1 ∧
      (∃ pre : String,
        (signedDownloadHandler b2AuthFixed "lectureai-bucket"
            "lecture1.mp3").1.downloadUrl = pre ++ "lecture1.mp3") ∧
      (signedDownloadHandler b2AuthFixed "lectureai-bucket"
          "lecture1.mp3").1.authorizationHeader ≠ "" :=
  signed_download_url_contains_name b2AuthFixed "lectureai-bucket" "lecture1.mp3"
    (by decide)

/-- C10: whenever the request carries a file and all three provider responses
have bodies that parse as JSON, the upload handler answers 200
`Upload successful` and relays the third response's payload — the provider
responses' HTTP statuses are arbitrary and never inspected. -/
theorem upload_ignores_provider_status (f : UploadedFile)
    (a b c : ProviderResponse) (ja jb jc : String)
    (ha : a.jsonBody = some ja) (hb : b.jsonBody = some jb)
    (hc : c.jsonBody = some jc) :
    (uploadHandler (some f) a b c).status = 200 ∧
      (uploadHandler (some f) a b c).message = some "Upload successful" ∧
      (uploadHandler (some f) a b c).uploadResult = some jc := by
  refine ⟨?_, ?_, ?_⟩ <;> simp [uploadHandler, ha, hb, hc]

/-- C10 witness: provider responses whose HTTP statuses are 401, 503 and 500
but whose bodies are JSON still produce a 200 `Upload successful` relaying the
upload response's payload. -/
theorem upload_ignores_provider_status_witness :
    (uploadHandler (some fileLecture) respAuthDenied respUrlFailed
        respUploadFailed).status = 200 ∧
      (uploadHandler (some fileLecture) respAuthDenied respUrlFailed
          respUploadFailed).message = some "Upload successful" ∧
      (uploadHandler (some fileLecture) respAuthDenied respUrlFailed
          respUploadFailed).uploadResult = some "uploadFailed" :=
  upload_ignores_provider_status fileLecture respAuthDenied respUrlFailed
    respUploadFailed "authDenied" "urlFailed" "uploadFailed" rfl rfl rfl

end LectureAI
